import Mathlib

/-!
Shallow embedding of the subscription/payment core of the service:
the subscription lifecycle manager (`subscription.service.ts` /
`subscription.controller.ts`, both the superseded mongoose-backed
lineage and the canonical db-service-backed lineage) and the webhook
reconciler (`webhook.service.ts` / its db-service-backed twin).

Conventions of the embedding:
* timestamps are `Int` milliseconds since the epoch (`Date.getTime()`);
  processor events carry epoch seconds, converted with `* 1000` exactly
  where the code calls `new Date(x * 1000)`;
* the remote state store ("db-service") is modelled as an in-memory
  list of records; its update endpoints apply the partial-update DTO as
  a field-wise patch (mongoose `findByIdAndUpdate` and the db-service
  PUT endpoints both receive the same partial DTO);
* every outbound processor-side or remote-state mutating call is
  recorded in a `Call` trace, so "performs zero mutations" is
  `trace = []` together with an unchanged store;
* the identity-service ("auth service") notification's network outcome
  is an explicit `FetchOutcome` argument;
* fallible operations return `Except ApiError _`; thrown Nest
  exceptions (`NotFoundException`, `BadRequestException`) become the
  corresponding `ApiError` constructors.
-/

/-- `SubscriptionStatus` enum of `common/types`. -/
inductive SubscriptionStatus where
  | trial
  | active
  | past_due
  | canceled
  | unpaid
deriving DecidableEq, Repr

/-- `SubscriptionPlan` enum of `common/types`. -/
inductive SubscriptionPlan where
  | monthly
  | yearly
deriving DecidableEq, Repr

/-- `PaymentStatus` enum of `common/types`. -/
inductive PaymentStatus where
  | pending
  | succeeded
  | failed
  | canceled
  | refunded
deriving DecidableEq, Repr

/-- Typed errors: the Nest exceptions the lifecycle code throws. -/
inductive ApiError where
  | notFound (msg : String)
  | badRequest (msg : String)
deriving DecidableEq, Repr

/-- The stored subscription projection (the `Subscription` interface of
`db-service.client.ts`; the mongoose schema carries the same fields).
`_id` is the record id assigned by the store. -/
structure Subscription where
  _id : Option String
  userId : String
  stripeCustomerId : String
  stripeSubscriptionId : Option String
  status : SubscriptionStatus
  plan : SubscriptionPlan
  trialStart : Option Int
  trialEnd : Option Int
  currentPeriodStart : Option Int
  currentPeriodEnd : Option Int
  cancelAtPeriodEnd : Bool
  cardValidated : Bool
  canceledAt : Option Int
  nextBillingDate : Option Int
  monthlyPrice : Int
  yearlyPrice : Int
  currency : String
  isTrialActive : Bool
deriving DecidableEq, Repr

/-- The stored payment record (the `Payment` interface of
`db-service.client.ts`, restricted to the fields this core writes). -/
structure Payment where
  userId : String
  subscriptionId : String
  stripePaymentIntentId : String
  status : PaymentStatus
  paymentMethod : String
  amount : Int
  currency : String
  description : String
  paidAt : Option Int
  failureReason : Option String
  refundedAmount : Int
  receiptUrl : Option String
  invoiceId : Option String
  billingPeriodStart : Option Int
  billingPeriodEnd : Option Int
  isTrial : Bool
deriving DecidableEq, Repr

/-- `UpdateSubscriptionDto` of `db-service.client.ts`: every field
optional; an absent field (`none`) is not touched by the update. -/
structure UpdateSubscriptionDto where
  stripeSubscriptionId : Option String := none
  status : Option SubscriptionStatus := none
  plan : Option SubscriptionPlan := none
  trialStart : Option Int := none
  trialEnd : Option Int := none
  currentPeriodStart : Option Int := none
  currentPeriodEnd : Option Int := none
  cancelAtPeriodEnd : Option Bool := none
  cardValidated : Option Bool := none
  canceledAt : Option Int := none
  nextBillingDate : Option Int := none
  isTrialActive : Option Bool := none
deriving DecidableEq, Repr

/-- `UpdatePaymentDto` of `db-service.client.ts`, restricted to the
fields the webhook reconciler writes. -/
structure UpdatePaymentDto where
  status : Option PaymentStatus := none
  paidAt : Option Int := none
  failureReason : Option String := none
deriving DecidableEq, Repr

/-- Present-field-wins merge for a mandatory field of the record. -/
def patchField {α : Type} (upd : Option α) (old : α) : α :=
  match upd with
  | some v => v
  | none => old

/-- Present-field-wins merge for an optional field of the record
(the DTOs never write an explicit null, so `none` means "absent"). -/
def patchOptField {α : Type} (upd : Option α) (old : Option α) : Option α :=
  match upd with
  | some v => some v
  | none => old

/-- Field-wise application of a partial subscription update, the
semantics shared by mongoose `findByIdAndUpdate` and the db-service
PUT-by-user-id / PUT-by-stripe-subscription-id endpoints. -/
def applySubscriptionUpdate (s : Subscription) (d : UpdateSubscriptionDto) : Subscription :=
  { _id := s._id
    userId := s.userId
    stripeCustomerId := s.stripeCustomerId
    stripeSubscriptionId := patchOptField d.stripeSubscriptionId s.stripeSubscriptionId
    status := patchField d.status s.status
    plan := patchField d.plan s.plan
    trialStart := patchOptField d.trialStart s.trialStart
    trialEnd := patchOptField d.trialEnd s.trialEnd
    currentPeriodStart := patchOptField d.currentPeriodStart s.currentPeriodStart
    currentPeriodEnd := patchOptField d.currentPeriodEnd s.currentPeriodEnd
    cancelAtPeriodEnd := patchField d.cancelAtPeriodEnd s.cancelAtPeriodEnd
    cardValidated := patchField d.cardValidated s.cardValidated
    canceledAt := patchOptField d.canceledAt s.canceledAt
    nextBillingDate := patchOptField d.nextBillingDate s.nextBillingDate
    monthlyPrice := s.monthlyPrice
    yearlyPrice := s.yearlyPrice
    currency := s.currency
    isTrialActive := patchField d.isTrialActive s.isTrialActive }

/-- Field-wise application of a partial payment update. -/
def applyPaymentUpdate (p : Payment) (d : UpdatePaymentDto) : Payment :=
  { p with
    status := patchField d.status p.status
    paidAt := patchOptField d.paidAt p.paidAt
    failureReason := patchOptField d.failureReason p.failureReason }

/-- JS truthiness of an optional numeric field (`null` and `0` are
falsy), as used by `if (subscription.canceled_at)` and
`invoice.period_start ? ... : undefined`. -/
def jsTruthyNum (v : Option Int) : Bool :=
  match v with
  | none => false
  | some n => decide (n ≠ 0)

/-- JS truthiness of an optional string field (`null` and the empty
string are falsy), as used by `if (!invoice.subscription || ...)`. -/
def jsTruthyStr (v : Option String) : Bool :=
  match v with
  | none => false
  | some s => decide (s ≠ "")

/-- `d && d > now` on an optional date: false when the date is unset,
otherwise the strict comparison `now < t`. -/
def optAfter (d : Option Int) (now : Int) : Bool :=
  match d with
  | none => false
  | some t => decide (now < t)

/-- The subscription store: the durable records, keyed by `userId`
(at most one per user by design) or looked up by the stored
`stripeSubscriptionId`. -/
abbrev SubDb : Type := List Subscription

/-- The payment store. -/
abbrev PayDb : Type := List Payment

/-- `findSubscriptionByUserId` (db-service GET, mongoose `findOne`):
first stored record for the user, `none` when absent (404 → null). -/
def findSubscriptionByUserId (db : SubDb) (userId : String) : Option Subscription :=
  List.find? (fun s => s.userId == userId) db

/-- `findSubscriptionByStripeSubscriptionId`. -/
def findSubscriptionByStripeSubscriptionId (db : SubDb) (sid : String) : Option Subscription :=
  List.find? (fun s => s.stripeSubscriptionId == some sid) db

/-- `updateSubscriptionByUserId`: patch every record of the user. -/
def updateSubscriptionByUserId (db : SubDb) (userId : String) (d : UpdateSubscriptionDto) : SubDb :=
  List.map (fun s => if s.userId == userId then applySubscriptionUpdate s d else s) db

/-- `updateSubscriptionByStripeSubscriptionId`: patch by processor id. -/
def updateSubscriptionByStripeSubscriptionId (db : SubDb) (sid : String) (d : UpdateSubscriptionDto) : SubDb :=
  List.map (fun s => if s.stripeSubscriptionId == some sid then applySubscriptionUpdate s d else s) db

/-- `changeSubscriptionPlan` (db-service PUT `.../plan`): store the new
plan on the user's record. -/
def changeSubscriptionPlanDb (db : SubDb) (userId : String) (plan : SubscriptionPlan) : SubDb :=
  updateSubscriptionByUserId db userId { plan := some plan }

/-- `findPaymentByStripePaymentIntentId`. -/
def findPaymentByStripePaymentIntentId (db : PayDb) (pid : String) : Option Payment :=
  List.find? (fun p => p.stripePaymentIntentId == pid) db

/-- `updatePaymentByStripePaymentIntentId`. -/
def updatePaymentByStripePaymentIntentId (db : PayDb) (pid : String) (d : UpdatePaymentDto) : PayDb :=
  List.map (fun p => if p.stripePaymentIntentId == pid then applyPaymentUpdate p d else p) db

/-- Trace entries for every outbound mutating call: processor-side
(Stripe) mutations and remote-state (db-service) writes. -/
inductive Call where
  | stripeCreateCustomer (email : String) (name : String)
  | stripeAttachPaymentMethod (paymentMethodId : String) (customerId : String)
  | stripeUpdateCustomerDefaultPm (customerId : String) (paymentMethodId : String)
  | stripeCreateSubscription (customerId : String) (priceId : String) (trialDays : Int)
  | stripeCancelSubscription (subscriptionId : String) (atPeriodEnd : Bool)
  | dbCreateSubscription (record : Subscription)
  | dbUpdateSubscriptionByUserId (userId : String) (d : UpdateSubscriptionDto)
  | dbChangeSubscriptionPlan (userId : String) (plan : SubscriptionPlan)
  | dbUpdateSubscriptionByStripeId (sid : String) (d : UpdateSubscriptionDto)
  | dbCreatePayment (record : Payment)
  | dbUpdatePaymentByIntentId (pid : String) (d : UpdatePaymentDto)
deriving DecidableEq, Repr

/-- The fields of a processor `Stripe.Subscription` object that the
reconciler reads (period bounds and `canceled_at` in epoch seconds). -/
structure StripeSub where
  id : String
  status : String
  current_period_start : Int
  current_period_end : Int
  cancel_at_period_end : Bool
  canceled_at : Option Int
deriving DecidableEq, Repr

/-- The fields of a processor `Stripe.Invoice` object that the
reconciler reads. -/
structure StripeInvoice where
  id : String
  subscription : Option String
  payment_intent : Option String
  amount_paid : Int
  amount_due : Int
  currency : String
  description : Option String
  period_start : Option Int
  period_end : Option Int
  hosted_invoice_url : Option String
deriving DecidableEq, Repr

/-- The fields of a processor `Stripe.PaymentIntent` object that the
reconciler reads. -/
structure StripePaymentIntent where
  id : String
  last_payment_error_message : Option String
deriving DecidableEq, Repr

/-- A verified processor event, after the gateway has parsed the
payload: the dispatch of `processWebhook` switches on `event.type` and
casts `event.data.object`, which this sum type captures. -/
inductive StripeEvent where
  | customerSubscriptionCreated (s : StripeSub)
  | customerSubscriptionUpdated (s : StripeSub)
  | customerSubscriptionDeleted (s : StripeSub)
  | invoicePaymentSucceeded (i : StripeInvoice)
  | invoicePaymentFailed (i : StripeInvoice)
  | paymentIntentSucceeded (p : StripePaymentIntent)
  | paymentIntentFailed (p : StripePaymentIntent)
  | other (type : String)
deriving DecidableEq, Repr

/-- The two record stores the reconciler mutates. -/
structure WebhookState where
  subs : SubDb
  payments : PayDb

namespace WebhookService

/-- `mapStripeStatus` of the db-service-backed webhook service
(the canonical reconciler): the JS string switch as an equality
chain; the `default` arm logs a warning and returns `UNPAID`. -/
def mapStripeStatus (stripeStatus : String) : SubscriptionStatus :=
  if stripeStatus = "trialing" then SubscriptionStatus.trial
  else if stripeStatus = "active" then SubscriptionStatus.active
  else if stripeStatus = "past_due" then SubscriptionStatus.past_due
  else if stripeStatus = "canceled" ∨ stripeStatus = "cancelled" then SubscriptionStatus.canceled
  else if stripeStatus = "unpaid" then SubscriptionStatus.unpaid
  else SubscriptionStatus.unpaid

/-- `handleSubscriptionCreated`: look up by processor subscription id;
absent → warn and no-op; present → patch processor id, mapped status
and the period bounds (epoch seconds → ms). -/
def handleSubscriptionCreated (db : SubDb) (subscription : StripeSub) : SubDb × List Call :=
  match findSubscriptionByStripeSubscriptionId db subscription.id with
  | none => (db, [])
  | some _ =>
      let d : UpdateSubscriptionDto :=
        { stripeSubscriptionId := some subscription.id
          status := some (mapStripeStatus subscription.status)
          currentPeriodStart := some (subscription.current_period_start * 1000)
          currentPeriodEnd := some (subscription.current_period_end * 1000) }
      (updateSubscriptionByStripeSubscriptionId db subscription.id d,
       [Call.dbUpdateSubscriptionByStripeId subscription.id d])

/-- The partial update built by `handleSubscriptionUpdated`:
status, period bounds, `cancelAtPeriodEnd`, and `canceledAt` only when
`subscription.canceled_at` is truthy. -/
def subscriptionUpdatedDto (subscription : StripeSub) : UpdateSubscriptionDto :=
  let updateData : UpdateSubscriptionDto :=
    { status := some (mapStripeStatus subscription.status)
      currentPeriodStart := some (subscription.current_period_start * 1000)
      currentPeriodEnd := some (subscription.current_period_end * 1000)
      cancelAtPeriodEnd := some subscription.cancel_at_period_end }
  if jsTruthyNum subscription.canceled_at then
    { updateData with canceledAt := some ((subscription.canceled_at.getD 0) * 1000) }
  else updateData

/-- `handleSubscriptionUpdated`: absent → warn and no-op; present →
apply `subscriptionUpdatedDto`. -/
def handleSubscriptionUpdated (db : SubDb) (subscription : StripeSub) : SubDb × List Call :=
  match findSubscriptionByStripeSubscriptionId db subscription.id with
  | none => (db, [])
  | some _ =>
      (updateSubscriptionByStripeSubscriptionId db subscription.id (subscriptionUpdatedDto subscription),
       [Call.dbUpdateSubscriptionByStripeId subscription.id (subscriptionUpdatedDto subscription)])

/-- `handleSubscriptionDeleted`: absent → warn and no-op; present →
force `status = canceled`, `canceledAt = now`. -/
def handleSubscriptionDeleted (db : SubDb) (subscription : StripeSub) (now : Int) : SubDb × List Call :=
  match findSubscriptionByStripeSubscriptionId db subscription.id with
  | none => (db, [])
  | some _ =>
      let d : UpdateSubscriptionDto :=
        { status := some SubscriptionStatus.canceled
          canceledAt := some now }
      (updateSubscriptionByStripeSubscriptionId db subscription.id d,
       [Call.dbUpdateSubscriptionByStripeId subscription.id d])

/-- `handlePaymentSucceeded` (`invoice.payment_succeeded`): requires a
truthy subscription and payment-intent reference; looks up the local
subscription; creates a `succeeded` payment record; then promotes the
subscription to `active` / clears `isTrialActive` unless already
active. -/
def handlePaymentSucceeded (st : WebhookState) (invoice : StripeInvoice) (now : Int) :
    WebhookState × List Call :=
  if !(jsTruthyStr invoice.subscription) || !(jsTruthyStr invoice.payment_intent) then
    (st, [])
  else
    let sid := invoice.subscription.getD ""
    match findSubscriptionByStripeSubscriptionId st.subs sid with
    | none => (st, [])
    | some subscription =>
        let payment : Payment :=
          { userId := subscription.userId
            subscriptionId := subscription._id.getD ""
            stripePaymentIntentId := invoice.payment_intent.getD ""
            status := PaymentStatus.succeeded
            paymentMethod := "card"
            amount := invoice.amount_paid
            currency := invoice.currency
            description := invoice.description.getD "Subscription payment"
            paidAt := some now
            failureReason := none
            refundedAmount := 0
            receiptUrl := invoice.hosted_invoice_url
            invoiceId := some invoice.id
            billingPeriodStart :=
              if jsTruthyNum invoice.period_start then some ((invoice.period_start.getD 0) * 1000) else none
            billingPeriodEnd :=
              if jsTruthyNum invoice.period_end then some ((invoice.period_end.getD 0) * 1000) else none
            isTrial := false }
        let payments := st.payments ++ [payment]
        if subscription.status ≠ SubscriptionStatus.active then
          let d : UpdateSubscriptionDto :=
            { status := some SubscriptionStatus.active
              isTrialActive := some false }
          ({ subs := updateSubscriptionByStripeSubscriptionId st.subs sid d, payments := payments },
           [Call.dbCreatePayment payment, Call.dbUpdateSubscriptionByStripeId sid d])
        else
          ({ st with payments := payments }, [Call.dbCreatePayment payment])

/-- `handlePaymentFailed` (`invoice.payment_failed`): same reference
requirements; creates a `failed` payment record with the amount due,
then demotes the subscription to `past_due`. -/
def handlePaymentFailed (st : WebhookState) (invoice : StripeInvoice) : WebhookState × List Call :=
  if !(jsTruthyStr invoice.subscription) || !(jsTruthyStr invoice.payment_intent) then
    (st, [])
  else
    let sid := invoice.subscription.getD ""
    match findSubscriptionByStripeSubscriptionId st.subs sid with
    | none => (st, [])
    | some subscription =>
        let payment : Payment :=
          { userId := subscription.userId
            subscriptionId := subscription._id.getD ""
            stripePaymentIntentId := invoice.payment_intent.getD ""
            status := PaymentStatus.failed
            paymentMethod := "card"
            amount := invoice.amount_due
            currency := invoice.currency
            description := invoice.description.getD "Failed subscription payment"
            paidAt := none
            failureReason := some "Payment failed via webhook"
            refundedAmount := 0
            receiptUrl := none
            invoiceId := some invoice.id
            billingPeriodStart :=
              if jsTruthyNum invoice.period_start then some ((invoice.period_start.getD 0) * 1000) else none
            billingPeriodEnd :=
              if jsTruthyNum invoice.period_end then some ((invoice.period_end.getD 0) * 1000) else none
            isTrial := false }
        let d : UpdateSubscriptionDto := { status := some SubscriptionStatus.past_due }
        ({ subs := updateSubscriptionByStripeSubscriptionId st.subs sid d,
           payments := st.payments ++ [payment] },
         [Call.dbCreatePayment payment, Call.dbUpdateSubscriptionByStripeId sid d])

/-- `handlePaymentIntentSucceeded`: mark an existing payment succeeded;
no-op (log only) when no payment record matches. -/
def handlePaymentIntentSucceeded (st : WebhookState) (paymentIntent : StripePaymentIntent) (now : Int) :
    WebhookState × List Call :=
  match findPaymentByStripePaymentIntentId st.payments paymentIntent.id with
  | none => (st, [])
  | some _ =>
      let d : UpdatePaymentDto := { status := some PaymentStatus.succeeded, paidAt := some now }
      ({ st with payments := updatePaymentByStripePaymentIntentId st.payments paymentIntent.id d },
       [Call.dbUpdatePaymentByIntentId paymentIntent.id d])

/-- `handlePaymentIntentFailed`: mark an existing payment failed with
the processor's last error message; no-op when absent. -/
def handlePaymentIntentFailed (st : WebhookState) (paymentIntent : StripePaymentIntent) :
    WebhookState × List Call :=
  match findPaymentByStripePaymentIntentId st.payments paymentIntent.id with
  | none => (st, [])
  | some _ =>
      let d : UpdatePaymentDto :=
        { status := some PaymentStatus.failed
          failureReason := some (paymentIntent.last_payment_error_message.getD "Payment failed") }
      ({ st with payments := updatePaymentByStripePaymentIntentId st.payments paymentIntent.id d },
       [Call.dbUpdatePaymentByIntentId paymentIntent.id d])

/-- `processWebhook`: the gateway's `constructWebhookEvent` runs first
(its outcome — a parsed event or a thrown verification error — is the
`verified` argument); a verification failure is rethrown by the catch
block before any handler runs. On success, dispatch by event type; an
unknown type is logged and ignored. The result carries the trace of
mutating calls, the final stores, and the raised error if any. -/
def processWebhook (verified : Except String StripeEvent) (st : WebhookState) (now : Int) :
    List Call × WebhookState × Except String Unit :=
  match verified with
  | Except.error e => ([], st, Except.error e)
  | Except.ok event =>
      match event with
      | StripeEvent.customerSubscriptionCreated s =>
          let r := handleSubscriptionCreated st.subs s
          (r.2, { st with subs := r.1 }, Except.ok ())
      | StripeEvent.customerSubscriptionUpdated s =>
          let r := handleSubscriptionUpdated st.subs s
          (r.2, { st with subs := r.1 }, Except.ok ())
      | StripeEvent.customerSubscriptionDeleted s =>
          let r := handleSubscriptionDeleted st.subs s now
          (r.2, { st with subs := r.1 }, Except.ok ())
      | StripeEvent.invoicePaymentSucceeded i =>
          let r := handlePaymentSucceeded st i now
          (r.2, r.1, Except.ok ())
      | StripeEvent.invoicePaymentFailed i =>
          let r := handlePaymentFailed st i
          (r.2, r.1, Except.ok ())
      | StripeEvent.paymentIntentSucceeded p =>
          let r := handlePaymentIntentSucceeded st p now
          (r.2, r.1, Except.ok ())
      | StripeEvent.paymentIntentFailed p =>
          let r := handlePaymentIntentFailed st p
          (r.2, r.1, Except.ok ())
      | StripeEvent.other _ => ([], st, Except.ok ())

end WebhookService

namespace LegacyWebhook

/-- `mapStripeStatus` of the superseded mongoose-backed webhook
service: no `"cancelled"` arm, and the `default` arm returns
`ACTIVE`. -/
def mapStripeStatus (stripeStatus : String) : SubscriptionStatus :=
  if stripeStatus = "active" then SubscriptionStatus.active
  else if stripeStatus = "past_due" then SubscriptionStatus.past_due
  else if stripeStatus = "canceled" then SubscriptionStatus.canceled
  else if stripeStatus = "unpaid" then SubscriptionStatus.unpaid
  else if stripeStatus = "trialing" then SubscriptionStatus.trial
  else SubscriptionStatus.active

end LegacyWebhook

/-- Modelled from the spec's mapping table (§4.2), for comparison with
the code's `mapStripeStatus`: `trialing`→trial, `active`→active,
`past_due`→past_due, `canceled`/`cancelled`→canceled, `unpaid`→unpaid;
unrecognized → unpaid. -/
def specStatusTable : List (String × SubscriptionStatus) :=
  [("trialing", SubscriptionStatus.trial),
   ("active", SubscriptionStatus.active),
   ("past_due", SubscriptionStatus.past_due),
   ("canceled", SubscriptionStatus.canceled),
   ("cancelled", SubscriptionStatus.canceled),
   ("unpaid", SubscriptionStatus.unpaid)]

/-- Spec-side mapping: table lookup with conservative `unpaid`
fallback. -/
def specStatusMap (s : String) : SubscriptionStatus :=
  match List.find? (fun e => e.1 == s) specStatusTable with
  | some e => e.2
  | none => SubscriptionStatus.unpaid

/-- The possible network-level behaviours of the identity (auth)
service when notified: a 2xx response, a non-2xx response, or a thrown
fetch error. -/
inductive FetchOutcome where
  | ok
  | httpError (httpStatus : Nat) (msg : String)
  | networkError (msg : String)
deriving DecidableEq, Repr

namespace AuthServiceClient

/-- `updateUserSubscription` of `auth-service.client.ts`: PATCHes the
identity service. A non-2xx response is logged and deliberately not
thrown; a thrown fetch error is caught, logged, and deliberately not
rethrown; a 2xx response is logged. Every path returns normally. -/
def updateUserSubscription (outcome : FetchOutcome) : Except ApiError Unit :=
  match outcome with
  | FetchOutcome.ok => Except.ok ()
  | FetchOutcome.httpError _ _ => Except.ok ()
  | FetchOutcome.networkError _ => Except.ok ()

end AuthServiceClient

/-- Oracle data for the external collaborators on the success paths:
ids minted by the processor and the remote store, configured price ids,
and the calendar arithmetic of `Date.setMonth(+1)` /
`Date.setFullYear(+1)` (left abstract: no claim depends on its value). -/
structure Env where
  newCustomerId : String
  newSubscriptionId : String
  newRecordId : String
  monthlyPriceId : String
  yearlyPriceId : String
  calendarAddMonth : Int → Int
  calendarAddYear : Int → Int

/-- 30 days in milliseconds: the fixed trial span of
`trialEnd.setDate(trialEnd.getDate() + 30)` under the epoch-ms
abstraction. -/
def thirtyDaysMs : Int := 30 * 86400000

/-- Result of a lifecycle operation: the trace of processor/remote
mutating calls, the resulting store, and the returned record or the
thrown error. -/
abbrev OpResult : Type := List Call × SubDb × Except ApiError Subscription

namespace SubscriptionService

/-- `getPriceId` of the db-service-backed service: resolve the
configured processor price id for the plan. -/
def getPriceId (env : Env) (plan : SubscriptionPlan) : String :=
  match plan with
  | SubscriptionPlan.monthly => env.monthlyPriceId
  | SubscriptionPlan.yearly => env.yearlyPriceId

/-- The record `create` persists: 30-day trial window from `now`,
status `trial`, `isTrialActive`, period = trial window, next billing at
trial end; monetary fields take the store's schema defaults. -/
def newTrialSubscription (env : Env) (userId : String) (plan : SubscriptionPlan)
    (now : Int) (cardValidated : Bool) : Subscription :=
  { _id := some env.newRecordId
    userId := userId
    stripeCustomerId := env.newCustomerId
    stripeSubscriptionId := none
    status := SubscriptionStatus.trial
    plan := plan
    trialStart := some now
    trialEnd := some (now + thirtyDaysMs)
    currentPeriodStart := some now
    currentPeriodEnd := some (now + thirtyDaysMs)
    cancelAtPeriodEnd := false
    cardValidated := cardValidated
    canceledAt := none
    nextBillingDate := some (now + thirtyDaysMs)
    monthlyPrice := 0
    yearlyPrice := 0
    currency := "eur"
    isTrialActive := true }

/-- `create` of the db-service-backed service: BadRequest when the
user already has a subscription; otherwise create a processor
customer, persist the trial projection, then notify the identity
service (best effort). -/
def create (env : Env) (db : SubDb) (userId email name : String) (plan : SubscriptionPlan)
    (now : Int) (auth : FetchOutcome) : OpResult :=
  match findSubscriptionByUserId db userId with
  | some _ => ([], db, Except.error (ApiError.badRequest "User already has an active subscription"))
  | none =>
      let savedSubscription := newTrialSubscription env userId plan now false
      let calls := [Call.stripeCreateCustomer email name,
                    Call.dbCreateSubscription savedSubscription]
      match AuthServiceClient.updateUserSubscription auth with
      | Except.ok _ => (calls, db ++ [savedSubscription], Except.ok savedSubscription)
      | Except.error e => (calls, db ++ [savedSubscription], Except.error e)

/-- `changePlan` of the db-service-backed service: NotFound when the
user has no subscription; otherwise forward the plan change to the
remote store (no same-plan check in this lineage) and notify the
identity service. -/
def changePlan (db : SubDb) (userId : String) (newPlan : SubscriptionPlan)
    (auth : FetchOutcome) : OpResult :=
  match findSubscriptionByUserId db userId with
  | none => ([], db, Except.error (ApiError.notFound "Subscription not found"))
  | some subscription =>
      let updatedSubscription := applySubscriptionUpdate subscription { plan := some newPlan }
      let calls := [Call.dbChangeSubscriptionPlan userId newPlan]
      match AuthServiceClient.updateUserSubscription auth with
      | Except.ok _ => (calls, changeSubscriptionPlanDb db userId newPlan, Except.ok updatedSubscription)
      | Except.error e => (calls, changeSubscriptionPlanDb db userId newPlan, Except.error e)

/-- `createSubscriptionWithCard` of the db-service-backed service.
With an existing subscription on a different plan: delegate to
`changePlan`, validate the card if not yet validated, notify. With an
existing subscription on the same plan: the code comments "Create a
new subscription with the same plan" and calls `create`. With no
subscription: create the processor customer, attach the payment method
and set it default, persist the trial projection with
`cardValidated = true`, notify. -/
def createSubscriptionWithCard (env : Env) (db : SubDb) (userId email name : String)
    (plan : SubscriptionPlan) (paymentMethodId : String) (now : Int) (auth : FetchOutcome) : OpResult :=
  match findSubscriptionByUserId db userId with
  | some existingSubscription =>
      if existingSubscription.plan ≠ plan then
        let r1 := changePlan db userId plan auth
        match r1.2.2 with
        | Except.error e => (r1.1, r1.2.1, Except.error e)
        | Except.ok updatedSubscription =>
            if !existingSubscription.cardValidated
                && jsTruthyStr (some existingSubscription.stripeCustomerId) then
              let cid := existingSubscription.stripeCustomerId
              let d : UpdateSubscriptionDto := { cardValidated := some true }
              let calls := r1.1 ++
                [Call.stripeAttachPaymentMethod paymentMethodId cid,
                 Call.stripeUpdateCustomerDefaultPm cid paymentMethodId,
                 Call.dbUpdateSubscriptionByUserId userId d]
              let db2 := updateSubscriptionByUserId r1.2.1 userId d
              match AuthServiceClient.updateUserSubscription auth with
              | Except.ok _ => (calls, db2, Except.ok updatedSubscription)
              | Except.error e => (calls, db2, Except.error e)
            else
              match AuthServiceClient.updateUserSubscription auth with
              | Except.ok _ => (r1.1, r1.2.1, Except.ok updatedSubscription)
              | Except.error e => (r1.1, r1.2.1, Except.error e)
      else
        create env db userId email name plan now auth
  | none =>
      let savedSubscription := newTrialSubscription env userId plan now true
      let calls := [Call.stripeCreateCustomer email name,
                    Call.stripeAttachPaymentMethod paymentMethodId env.newCustomerId,
                    Call.stripeUpdateCustomerDefaultPm env.newCustomerId paymentMethodId,
                    Call.dbCreateSubscription savedSubscription]
      match AuthServiceClient.updateUserSubscription auth with
      | Except.ok _ => (calls, db ++ [savedSubscription], Except.ok savedSubscription)
      | Except.error e => (calls, db ++ [savedSubscription], Except.error e)

/-- `startPaidSubscription` of the db-service-backed service: NotFound
without a subscription, BadRequest when the status is not `trial`;
otherwise create the processor subscription with zero trial days,
persist `active`/`isTrialActive=false` with the calendar-advanced
period end, and notify. (`paymentMethodId` is accepted but unused by
the code.) -/
def startPaidSubscription (env : Env) (db : SubDb) (userId paymentMethodId : String)
    (now : Int) (auth : FetchOutcome) : OpResult :=
  match findSubscriptionByUserId db userId with
  | none => ([], db, Except.error (ApiError.notFound "Subscription not found"))
  | some subscription =>
      if subscription.status ≠ SubscriptionStatus.trial then
        ([], db, Except.error (ApiError.badRequest "Subscription is not in trial status"))
      else
        let priceId := getPriceId env subscription.plan
        let nextBillingDate :=
          match subscription.plan with
          | SubscriptionPlan.monthly => env.calendarAddMonth now
          | SubscriptionPlan.yearly => env.calendarAddYear now
        let d : UpdateSubscriptionDto :=
          { stripeSubscriptionId := some env.newSubscriptionId
            status := some SubscriptionStatus.active
            isTrialActive := some false
            currentPeriodStart := some now
            currentPeriodEnd := some nextBillingDate
            nextBillingDate := some nextBillingDate }
        let calls := [Call.stripeCreateSubscription subscription.stripeCustomerId priceId 0,
                      Call.dbUpdateSubscriptionByUserId userId d]
        let updatedSubscription := applySubscriptionUpdate subscription d
        match AuthServiceClient.updateUserSubscription auth with
        | Except.ok _ => (calls, updateSubscriptionByUserId db userId d, Except.ok updatedSubscription)
        | Except.error e => (calls, updateSubscriptionByUserId db userId d, Except.error e)

/-- The partial update built by `cancel`: always `cancelAtPeriodEnd`;
status `canceled` and `canceledAt = now` added only when the
cancellation is immediate. -/
def cancelUpdateData (cancelAtPeriodEnd : Bool) (now : Int) : UpdateSubscriptionDto :=
  let updateData : UpdateSubscriptionDto := { cancelAtPeriodEnd := some cancelAtPeriodEnd }
  if !cancelAtPeriodEnd then
    { updateData with
      status := some SubscriptionStatus.canceled
      canceledAt := some now }
  else updateData

/-- `cancel` of the db-service-backed service: NotFound without a
subscription; cancel processor-side when a processor subscription id is
stored; persist `cancelUpdateData`; notify. -/
def cancel (db : SubDb) (userId : String) (cancelAtPeriodEnd : Bool) (now : Int)
    (auth : FetchOutcome) : OpResult :=
  match findSubscriptionByUserId db userId with
  | none => ([], db, Except.error (ApiError.notFound "Subscription not found"))
  | some subscription =>
      let stripeCalls :=
        if jsTruthyStr subscription.stripeSubscriptionId then
          [Call.stripeCancelSubscription (subscription.stripeSubscriptionId.getD "") cancelAtPeriodEnd]
        else []
      let updateData := cancelUpdateData cancelAtPeriodEnd now
      let updatedSubscription := applySubscriptionUpdate subscription updateData
      let calls := stripeCalls ++ [Call.dbUpdateSubscriptionByUserId userId updateData]
      match AuthServiceClient.updateUserSubscription auth with
      | Except.ok _ => (calls, updateSubscriptionByUserId db userId updateData, Except.ok updatedSubscription)
      | Except.error e => (calls, updateSubscriptionByUserId db userId updateData, Except.error e)

/-- `isActive` — the local activity computation of
`subscription.service.ts` (per the spec this local computation is the
canonical "is active" semantics): no subscription → false; a live
trial (`isTrialActive` with `trialEnd` strictly in the future) →
true; else active status with `currentPeriodEnd` strictly in the
future. -/
def isActive (subscription : Option Subscription) (now : Int) : Bool :=
  match subscription with
  | none => false
  | some s =>
      if s.isTrialActive && optAfter s.trialEnd now then true
      else (s.status == SubscriptionStatus.active) && optAfter s.currentPeriodEnd now

end SubscriptionService

namespace LegacySubscriptionService

/-- The fetch-based `updateUserSubscription` of the mongoose-backed
service: both the non-2xx and the thrown-error paths log and
deliberately do not throw. -/
def updateUserSubscription (outcome : FetchOutcome) : Except ApiError Unit :=
  match outcome with
  | FetchOutcome.ok => Except.ok ()
  | FetchOutcome.httpError _ _ => Except.ok ()
  | FetchOutcome.networkError _ => Except.ok ()

/-- `changePlan` of the superseded mongoose-backed service: NotFound
without a subscription; BadRequest when the stored plan already equals
`newPlan` (before any mutating call); otherwise persist the new plan
and notify. -/
def changePlan (db : SubDb) (userId : String) (newPlan : SubscriptionPlan)
    (auth : FetchOutcome) : OpResult :=
  match findSubscriptionByUserId db userId with
  | none => ([], db, Except.error (ApiError.notFound "Subscription not found"))
  | some subscription =>
      if subscription.plan = newPlan then
        ([], db, Except.error (ApiError.badRequest "Subscription is already on this plan"))
      else
        let d : UpdateSubscriptionDto := { plan := some newPlan }
        let updatedSubscription := applySubscriptionUpdate subscription d
        let calls := [Call.dbUpdateSubscriptionByUserId userId d]
        match updateUserSubscription auth with
        | Except.ok _ => (calls, updateSubscriptionByUserId db userId d, Except.ok updatedSubscription)
        | Except.error e => (calls, updateSubscriptionByUserId db userId d, Except.error e)

end LegacySubscriptionService

/-- A concrete environment for concrete evaluations. -/
def sampleEnv : Env :=
  { newCustomerId := "cus_new"
    newSubscriptionId := "sub_new"
    newRecordId := "rec_new"
    monthlyPriceId := "price_monthly_default"
    yearlyPriceId := "price_yearly_default"
    calendarAddMonth := fun t => t + 2678400000
    calendarAddYear := fun t => t + 31536000000 }

/-- A concrete stored subscription used as the base of the concrete
test states. -/
def baseSub : Subscription :=
  { _id := some "rec_1"
    userId := "u1"
    stripeCustomerId := "cus_1"
    stripeSubscriptionId := some "sub_1"
    status := SubscriptionStatus.trial
    plan := SubscriptionPlan.monthly
    trialStart := some 0
    trialEnd := some 1000
    currentPeriodStart := some 0
    currentPeriodEnd := some 1000
    cancelAtPeriodEnd := false
    cardValidated := false
    canceledAt := none
    nextBillingDate := some 1000
    monthlyPrice := 0
    yearlyPrice := 0
    currency := "eur"
    isTrialActive := true }

/-- A processor subscription event object that carries cancellation
data (`cancel_at_period_end` set, nonzero `canceled_at`). -/
def cancellingEvent : StripeSub :=
  { id := "sub_1"
    status := "active"
    current_period_start := 100
    current_period_end := 200
    cancel_at_period_end := true
    canceled_at := some 150 }

/-- A stored subscription whose trial end and period end coincide with
the probed instant (for the boundary check). -/
def boundarySub : Subscription :=
  { baseSub with trialEnd := some 5, currentPeriodEnd := some 5 }

theorem optAfter_eq_true (d : Option Int) (now : Int) :
    optAfter d now = true ↔ ∃ t, d = some t ∧ now < t := by
  cases d <;> simp [optAfter]

theorem auth_never_throws (o : FetchOutcome) :
    AuthServiceClient.updateUserSubscription o = Except.ok () := by
  cases o <;> rfl

theorem legacy_auth_never_throws (o : FetchOutcome) :
    LegacySubscriptionService.updateUserSubscription o = Except.ok () := by
  cases o <;> rfl

theorem find_updateWhere {α : Type} (p : α → Bool) (f : α → α) (l : List α) (s : α)
    (hf : ∀ x, p x = true → p (f x) = true)
    (hs : l.find? p = some s) :
    (l.map fun x => if p x then f x else x).find? p = some (f s) := by
  induction l with
  | nil => simp at hs
  | cons a t ih =>
      by_cases ha : p a = true
      · rw [List.find?_cons_of_pos _ ha] at hs
        injection hs with h
        subst h
        simp only [List.map_cons, if_pos ha]
        rw [List.find?_cons_of_pos _ (hf a ha)]
      · rw [List.find?_cons_of_neg _ (by simpa using ha)] at hs
        simp only [List.map_cons, if_neg ha]
        rw [List.find?_cons_of_neg _ (by simpa using ha)]
        exact ih hs

theorem findByUserId_update (db : SubDb) (u : String) (d : UpdateSubscriptionDto)
    (s : Subscription) (h : findSubscriptionByUserId db u = some s) :
    findSubscriptionByUserId (updateSubscriptionByUserId db u d) u
      = some (applySubscriptionUpdate s d) := by
  refine find_updateWhere _ _ _ _ ?_ h
  intro x hx
  simpa [applySubscriptionUpdate] using hx

theorem findByStripeId_update (db : SubDb) (sid : String) (d : UpdateSubscriptionDto)
    (s : Subscription)
    (hd : d.stripeSubscriptionId = none ∨ d.stripeSubscriptionId = some sid)
    (h : findSubscriptionByStripeSubscriptionId db sid = some s) :
    findSubscriptionByStripeSubscriptionId (updateSubscriptionByStripeSubscriptionId db sid d) sid
      = some (applySubscriptionUpdate s d) := by
  refine find_updateWhere _ _ _ _ ?_ h
  intro x hx
  rcases hd with hd | hd <;>
    simp [applySubscriptionUpdate, patchOptField, hd] <;>
    simpa using hx

/-- C1: in the canonical db-service-backed service, when the user
already has a subscription with the requested plan,
`createSubscriptionWithCard` does NOT return the existing subscription
unchanged: its same-plan branch calls `create`, which finds the
existing subscription and throws BadRequest. Evaluated at a concrete
store holding a monthly subscription for `u1` and a monthly request:
no mutation is issued, the store is unchanged, and the BadRequest of
the nested `create` propagates. -/
theorem c1_createSubscriptionWithCard_samePlan_throws :
    SubscriptionService.createSubscriptionWithCard sampleEnv [baseSub] "u1" "u1@mail" "User One"
        SubscriptionPlan.monthly "pm_1" 0 FetchOutcome.ok
      = ([], [baseSub], Except.error (ApiError.badRequest "User already has an active subscription")) := by
  rfl

/-- C2: the canonical reconciler's `mapStripeStatus` agrees with the
spec's mapping table (`trialing`→trial, `active`→active,
`past_due`→past_due, `canceled`/`cancelled`→canceled,
`unpaid`→unpaid, unrecognized→unpaid), and on every string outside the
table it returns `unpaid` — never the healthy `active`. -/
theorem c2_mapStripeStatus_follows_table :
    (∀ s : String, WebhookService.mapStripeStatus s = specStatusMap s)
    ∧ (∀ s : String, s ≠ "trialing" → s ≠ "active" → s ≠ "past_due" → s ≠ "canceled" →
        s ≠ "cancelled" → s ≠ "unpaid" →
        WebhookService.mapStripeStatus s = SubscriptionStatus.unpaid
          ∧ WebhookService.mapStripeStatus s ≠ SubscriptionStatus.active) := by
  constructor
  · intro s
    by_cases h1 : s = "trialing"
    · subst h1; rfl
    by_cases h2 : s = "active"
    · subst h2; rfl
    by_cases h3 : s = "past_due"
    · subst h3; rfl
    by_cases h4 : s = "canceled"
    · subst h4; rfl
    by_cases h5 : s = "cancelled"
    · subst h5; rfl
    by_cases h6 : s = "unpaid"
    · subst h6; rfl
    have e1 : ("trialing" == s) = false := by simp [Ne.symm h1]
    have e2 : ("active" == s) = false := by simp [Ne.symm h2]
    have e3 : ("past_due" == s) = false := by simp [Ne.symm h3]
    have e4 : ("canceled" == s) = false := by simp [Ne.symm h4]
    have e5 : ("cancelled" == s) = false := by simp [Ne.symm h5]
    have e6 : ("unpaid" == s) = false := by simp [Ne.symm h6]
    simp [WebhookService.mapStripeStatus, specStatusMap, specStatusTable, List.find?,
      h1, h2, h3, h4, h5, h6, e1, e2, e3, e4, e5, e6]
  · intro s h1 h2 h3 h4 h5 h6
    constructor
    · simp [WebhookService.mapStripeStatus, h1, h2, h3, h4, h5, h6]
    · simp [WebhookService.mapStripeStatus, h1, h2, h3, h4, h5, h6]

/-- C2 witness: `"incomplete"` (a real processor status outside the
table) maps to `unpaid`, not `active`. -/
theorem c2_mapStripeStatus_follows_table_witness :
    WebhookService.mapStripeStatus "incomplete" = SubscriptionStatus.unpaid
      ∧ WebhookService.mapStripeStatus "incomplete" ≠ SubscriptionStatus.active :=
  c2_mapStripeStatus_follows_table.2 "incomplete" (by decide) (by decide) (by decide)
    (by decide) (by decide) (by decide)

/-- C5: `processWebhook` runs signature verification first; whenever
the gateway's `constructWebhookEvent` fails, the error is rethrown
with an empty mutation trace and the stores untouched — the payload
never reaches an event handler. -/
theorem c5_verification_failure_precedes_mutation (e : String) (st : WebhookState) (now : Int) :
    WebhookService.processWebhook (Except.error e) st now = ([], st, Except.error e) := by
  rfl

/-- C4 counterexample: in the canonical db-service-backed service,
`changePlan` with `newPlan` equal to the stored plan does not fail
with BadRequest and does not perform zero mutations: at a concrete
store holding a monthly subscription for `u1`, a monthly `changePlan`
succeeds and issues the remote plan-change write. -/
theorem c4_changePlan_samePlan_succeeds_and_mutates :
    SubscriptionService.changePlan [baseSub] "u1" SubscriptionPlan.monthly FetchOutcome.ok
      = ([Call.dbChangeSubscriptionPlan "u1" SubscriptionPlan.monthly], [baseSub],
         Except.ok baseSub) := by
  rfl

/-- C4 (amended): with no stored subscription both lineages of
`changePlan` fail with NotFound and perform zero mutations; on a
same-plan request the canonical db-service-backed `changePlan`
succeeds and still issues the remote plan-change write (it has no
same-plan check), while the superseded mongoose-backed `changePlan`
fails with BadRequest and performs zero mutations. -/
theorem c4_changePlan_contract (db : SubDb) (u : String) (p : SubscriptionPlan)
    (auth : FetchOutcome) (s : Subscription) :
    (findSubscriptionByUserId db u = none →
        SubscriptionService.changePlan db u p auth
          = ([], db, Except.error (ApiError.notFound "Subscription not found"))
        ∧ LegacySubscriptionService.changePlan db u p auth
          = ([], db, Except.error (ApiError.notFound "Subscription not found")))
    ∧ (findSubscriptionByUserId db u = some s →
        SubscriptionService.changePlan db u s.plan auth
          = ([Call.dbChangeSubscriptionPlan u s.plan], changeSubscriptionPlanDb db u s.plan,
             Except.ok (applySubscriptionUpdate s { plan := some s.plan })))
    ∧ (findSubscriptionByUserId db u = some s →
        LegacySubscriptionService.changePlan db u s.plan auth
          = ([], db, Except.error (ApiError.badRequest "Subscription is already on this plan"))) := by
  refine ⟨?_, ?_, ?_⟩
  · intro h
    constructor
    · simp [SubscriptionService.changePlan, h]
    · simp [LegacySubscriptionService.changePlan, h]
  · intro h
    simp [SubscriptionService.changePlan, h, auth_never_throws]
  · intro h
    simp [LegacySubscriptionService.changePlan, h]

/-- C4 witness: the NotFound arm on the empty store and the legacy
same-plan BadRequest arm on a store holding a monthly subscription. -/
theorem c4_changePlan_contract_witness :
    (SubscriptionService.changePlan [] "u1" SubscriptionPlan.yearly FetchOutcome.ok
       = ([], [], Except.error (ApiError.notFound "Subscription not found")))
    ∧ (LegacySubscriptionService.changePlan [baseSub] "u1" baseSub.plan FetchOutcome.ok
       = ([], [baseSub], Except.error (ApiError.badRequest "Subscription is already on this plan"))) :=
  ⟨((c4_changePlan_contract [] "u1" SubscriptionPlan.yearly FetchOutcome.ok baseSub).1 rfl).1,
   (c4_changePlan_contract [baseSub] "u1" SubscriptionPlan.yearly FetchOutcome.ok baseSub).2.2 rfl⟩

/-- C7: `startPaidSubscription` fails with NotFound when the user has
no stored subscription and with BadRequest when the stored status is
not `trial`; on both paths the trace is empty and the store is
returned unchanged — zero processor-side or remote-state mutations. -/
theorem c7_startPaidSubscription_guards (env : Env) (db : SubDb) (u pm : String) (now : Int)
    (auth : FetchOutcome) (s : Subscription) :
    (findSubscriptionByUserId db u = none →
        SubscriptionService.startPaidSubscription env db u pm now auth
          = ([], db, Except.error (ApiError.notFound "Subscription not found")))
    ∧ (findSubscriptionByUserId db u = some s → s.status ≠ SubscriptionStatus.trial →
        SubscriptionService.startPaidSubscription env db u pm now auth
          = ([], db, Except.error (ApiError.badRequest "Subscription is not in trial status"))) := by
  constructor
  · intro h
    simp [SubscriptionService.startPaidSubscription, h]
  · intro h hstat
    simp [SubscriptionService.startPaidSubscription, h, hstat]

/-- C7 witness: the NotFound arm on the empty store; the BadRequest
arm on a store whose subscription is already `active`. -/
theorem c7_startPaidSubscription_guards_witness :
    (SubscriptionService.startPaidSubscription sampleEnv [] "u1" "pm_1" 0 FetchOutcome.ok
       = ([], [], Except.error (ApiError.notFound "Subscription not found")))
    ∧ (SubscriptionService.startPaidSubscription sampleEnv
         [{ baseSub with status := SubscriptionStatus.active }] "u1" "pm_1" 0 FetchOutcome.ok
       = ([], [{ baseSub with status := SubscriptionStatus.active }],
          Except.error (ApiError.badRequest "Subscription is not in trial status"))) :=
  ⟨(c7_startPaidSubscription_guards sampleEnv [] "u1" "pm_1" 0 FetchOutcome.ok baseSub).1 rfl,
   (c7_startPaidSubscription_guards sampleEnv [{ baseSub with status := SubscriptionStatus.active }]
      "u1" "pm_1" 0 FetchOutcome.ok { baseSub with status := SubscriptionStatus.active }).2 rfl
      (by decide)⟩

theorem cancelUpdate_eq (s : Subscription) (cape : Bool) (now : Int) :
    applySubscriptionUpdate s (SubscriptionService.cancelUpdateData cape now)
      = (if cape then { s with cancelAtPeriodEnd := true }
         else { s with cancelAtPeriodEnd := false,
                       status := SubscriptionStatus.canceled,
                       canceledAt := some now }) := by
  cases cape <;> rfl

theorem cancel_ok (db : SubDb) (u : String) (cape : Bool) (now : Int)
    (auth : FetchOutcome) (s : Subscription)
    (h : findSubscriptionByUserId db u = some s) :
    (SubscriptionService.cancel db u cape now auth).2.2
      = Except.ok (applySubscriptionUpdate s (SubscriptionService.cancelUpdateData cape now))
    ∧ findSubscriptionByUserId (SubscriptionService.cancel db u cape now auth).2.1 u
      = some (applySubscriptionUpdate s (SubscriptionService.cancelUpdateData cape now)) := by
  constructor
  · simp [SubscriptionService.cancel, h, auth_never_throws]
  · simp only [SubscriptionService.cancel, h, auth_never_throws]
    exact findByUserId_update db u _ s h

/-- C8: with a stored subscription, `cancel` returns ok and the stored
record afterwards is exactly the old record with `cancelAtPeriodEnd`
set to the requested flag — plus, only when the cancellation is
immediate, `status = canceled` and `canceledAt = now`; every other
field is unchanged (the record-update equality is the frame). -/
theorem c8_cancel_persists_flag_and_frames (db : SubDb) (u : String) (cape : Bool) (now : Int)
    (auth : FetchOutcome) (s : Subscription)
    (h : findSubscriptionByUserId db u = some s) :
    (SubscriptionService.cancel db u cape now auth).2.2
      = Except.ok (if cape then { s with cancelAtPeriodEnd := true }
                   else { s with cancelAtPeriodEnd := false,
                                 status := SubscriptionStatus.canceled,
                                 canceledAt := some now })
    ∧ findSubscriptionByUserId (SubscriptionService.cancel db u cape now auth).2.1 u
      = some (if cape then { s with cancelAtPeriodEnd := true }
              else { s with cancelAtPeriodEnd := false,
                            status := SubscriptionStatus.canceled,
                            canceledAt := some now }) := by
  have hc := cancel_ok db u cape now auth s h
  rw [cancelUpdate_eq] at hc
  exact hc

/-- C8 witness: immediate cancellation of the concrete stored trial
subscription sets the three fields and nothing else. -/
theorem c8_cancel_persists_flag_and_frames_witness :
    (SubscriptionService.cancel [baseSub] "u1" false 7 FetchOutcome.ok).2.2
      = Except.ok (if false then { baseSub with cancelAtPeriodEnd := true }
                   else { baseSub with cancelAtPeriodEnd := false,
                                       status := SubscriptionStatus.canceled,
                                       canceledAt := some 7 })
    ∧ findSubscriptionByUserId (SubscriptionService.cancel [baseSub] "u1" false 7 FetchOutcome.ok).2.1 "u1"
      = some (if false then { baseSub with cancelAtPeriodEnd := true }
              else { baseSub with cancelAtPeriodEnd := false,
                                  status := SubscriptionStatus.canceled,
                                  canceledAt := some 7 }) :=
  c8_cancel_persists_flag_and_frames [baseSub] "u1" false 7 FetchOutcome.ok baseSub rfl

/-- C10: immediate cancellation of a live trial leaves `isTrialActive`
set and `trialEnd` untouched, so `isActive` still answers true through
the trial branch while `now < trialEnd`, even though the stored status
is now `canceled`; from `trialEnd` on it answers false. -/
theorem c10_immediate_cancel_keeps_trial_access (db : SubDb) (u : String)
    (now tq te : Int) (auth : FetchOutcome) (s : Subscription)
    (h : findSubscriptionByUserId db u = some s)
    (htrial : s.isTrialActive = true) (hte : s.trialEnd = some te) (hq : tq < te) :
    ∃ upd : Subscription,
      (SubscriptionService.cancel db u false now auth).2.2 = Except.ok upd
      ∧ upd.status = SubscriptionStatus.canceled
      ∧ upd.isTrialActive = true
      ∧ upd.trialEnd = some te
      ∧ SubscriptionService.isActive (some upd) tq = true
      ∧ (∀ tr : Int, te ≤ tr → SubscriptionService.isActive (some upd) tr = false) := by
  refine ⟨{ s with cancelAtPeriodEnd := false,
                   status := SubscriptionStatus.canceled,
                   canceledAt := some now }, ?_, rfl, htrial, hte, ?_, ?_⟩
  · have hc := (cancel_ok db u false now auth s h).1
    rw [cancelUpdate_eq] at hc
    simpa using hc
  · simp [SubscriptionService.isActive, optAfter, htrial, hte, hq]
  · intro tr htr
    simp [SubscriptionService.isActive, optAfter, htrial, hte, not_lt.mpr htr]

/-- C10 witness: at the concrete trial store, immediate cancellation
at time 7 keeps the subscription active at time 500 (trial end 1000)
and inactive at time 1000. -/
theorem c10_immediate_cancel_keeps_trial_access_witness :
    ∃ upd : Subscription,
      (SubscriptionService.cancel [baseSub] "u1" false 7 FetchOutcome.ok).2.2 = Except.ok upd
      ∧ upd.status = SubscriptionStatus.canceled
      ∧ upd.isTrialActive = true
      ∧ upd.trialEnd = some 1000
      ∧ SubscriptionService.isActive (some upd) 500 = true
      ∧ (∀ tr : Int, (1000 : Int) ≤ tr → SubscriptionService.isActive (some upd) tr = false) :=
  c10_immediate_cancel_keeps_trial_access [baseSub] "u1" 7 500 1000 FetchOutcome.ok baseSub
    rfl rfl rfl (by decide)

/-- C6: `isActive` answers true exactly when a subscription exists and
either the trial branch (`isTrialActive` with `trialEnd` strictly
after `now`) or the paid branch (`status = active` with
`currentPeriodEnd` strictly after `now`) holds; and at the boundary
instant itself (`now` equal to both `trialEnd` and
`currentPeriodEnd`) it answers false. -/
theorem c6_isActive_characterization (subscription : Option Subscription) (now : Int) :
    (SubscriptionService.isActive subscription now = true
      ↔ ∃ s, subscription = some s
          ∧ ((s.isTrialActive = true ∧ ∃ t, s.trialEnd = some t ∧ now < t)
             ∨ (s.status = SubscriptionStatus.active ∧ ∃ t, s.currentPeriodEnd = some t ∧ now < t)))
    ∧ (∀ s : Subscription, s.trialEnd = some now → s.currentPeriodEnd = some now →
        SubscriptionService.isActive (some s) now = false) := by
  constructor
  · cases subscription with
    | none => simp [SubscriptionService.isActive]
    | some s =>
        constructor
        · intro hact
          by_cases hA : (s.isTrialActive && optAfter s.trialEnd now) = true
          · rw [Bool.and_eq_true] at hA
            obtain ⟨ht, ho⟩ := hA
            rcases (optAfter_eq_true _ _).mp ho with ⟨t, hts, hlt⟩
            exact ⟨s, rfl, Or.inl ⟨ht, t, hts, hlt⟩⟩
          · rw [SubscriptionService.isActive, if_neg hA] at hact
            rw [Bool.and_eq_true] at hact
            obtain ⟨hst, ho⟩ := hact
            rcases (optAfter_eq_true _ _).mp ho with ⟨t, hts, hlt⟩
            exact ⟨s, rfl, Or.inr ⟨by simpa using hst, t, hts, hlt⟩⟩
        · rintro ⟨s2, hs2, hcond⟩
          have hss : s2 = s := by
            injection hs2 with h2
            exact h2.symm
          subst hss
          rcases hcond with ⟨ht, t, hts, hlt⟩ | ⟨hst, t, hts, hlt⟩
          · have hA : (s2.isTrialActive && optAfter s2.trialEnd now) = true := by
              rw [ht, hts]
              simp [optAfter, hlt]
            rw [SubscriptionService.isActive, if_pos hA]
          · by_cases hA : (s2.isTrialActive && optAfter s2.trialEnd now) = true
            · rw [SubscriptionService.isActive, if_pos hA]
            · rw [SubscriptionService.isActive, if_neg hA, hts]
              simp [optAfter, hst, hlt]
  · intro s h1 h2
    simp [SubscriptionService.isActive, optAfter, h1, h2]

/-- C6 witness: at the boundary instant (5 = trialEnd =
currentPeriodEnd) the subscription is not active. -/
theorem c6_isActive_characterization_witness :
    SubscriptionService.isActive (some boundarySub) 5 = false :=
  (c6_isActive_characterization (some boundarySub) 5).2 boundarySub rfl rfl

/-- C3 counterexample: a `customer.subscription.created` event that
carries cancellation data (`cancel_at_period_end = true`, nonzero
`canceled_at`) matching the stored record `sub_1` leaves the stored
`cancelAtPeriodEnd` at `false` and `canceledAt` unset — the created
handler does not update those fields, contradicting the claim that
both event kinds do. -/
theorem c3_created_event_drops_cancellation_fields :
    cancellingEvent.cancel_at_period_end = true
    ∧ jsTruthyNum cancellingEvent.canceled_at = true
    ∧ Option.map (fun s => s.cancelAtPeriodEnd)
        (findSubscriptionByStripeSubscriptionId
          (WebhookService.handleSubscriptionCreated [baseSub] cancellingEvent).1 "sub_1")
      = some false
    ∧ Option.map (fun s => s.canceledAt)
        (findSubscriptionByStripeSubscriptionId
          (WebhookService.handleSubscriptionCreated [baseSub] cancellingEvent).1 "sub_1")
      = some none := by
  refine ⟨rfl, rfl, rfl, rfl⟩

/-- C3 (amended): on a matched record, `customer.subscription.updated`
updates status (per the mapping table), period start/end (epoch
seconds × 1000), `cancelAtPeriodEnd`, and `canceledAt` when the event
carries a truthy cancellation time; `customer.subscription.created`
updates only the processor subscription id, the status, and the period
start/end, leaving `cancelAtPeriodEnd` and `canceledAt` unchanged. -/
theorem c3_subscription_event_sync (db : SubDb) (ev : StripeSub) (s : Subscription)
    (h : findSubscriptionByStripeSubscriptionId db ev.id = some s) :
    findSubscriptionByStripeSubscriptionId
        (WebhookService.handleSubscriptionUpdated db ev).1 ev.id
      = some { s with
          status := WebhookService.mapStripeStatus ev.status
          currentPeriodStart := some (ev.current_period_start * 1000)
          currentPeriodEnd := some (ev.current_period_end * 1000)
          cancelAtPeriodEnd := ev.cancel_at_period_end
          canceledAt := if jsTruthyNum ev.canceled_at
                        then some (ev.canceled_at.getD 0 * 1000) else s.canceledAt }
    ∧ findSubscriptionByStripeSubscriptionId
        (WebhookService.handleSubscriptionCreated db ev).1 ev.id
      = some { s with
          stripeSubscriptionId := some ev.id
          status := WebhookService.mapStripeStatus ev.status
          currentPeriodStart := some (ev.current_period_start * 1000)
          currentPeriodEnd := some (ev.current_period_end * 1000) } := by
  constructor
  · simp only [WebhookService.handleSubscriptionUpdated, h]
    rw [findByStripeId_update db ev.id _ s
      (Or.inl (by cases hcc : jsTruthyNum ev.canceled_at <;>
        simp [WebhookService.subscriptionUpdatedDto, hcc])) h]
    by_cases hc : jsTruthyNum ev.canceled_at = true
    · simp [WebhookService.subscriptionUpdatedDto, hc, applySubscriptionUpdate,
        patchField, patchOptField]
    · simp [WebhookService.subscriptionUpdatedDto, hc, applySubscriptionUpdate,
        patchField, patchOptField]
  · simp only [WebhookService.handleSubscriptionCreated, h]
    rw [findByStripeId_update db ev.id _ s (Or.inr rfl) h]
    rfl

/-- C3 witness: the amended update behaviour evaluated at the concrete
store `[sub_1]` and the concrete cancelling event. -/
theorem c3_subscription_event_sync_witness :
    findSubscriptionByStripeSubscriptionId
        (WebhookService.handleSubscriptionUpdated [baseSub] cancellingEvent).1 cancellingEvent.id
      = some { baseSub with
          status := WebhookService.mapStripeStatus cancellingEvent.status
          currentPeriodStart := some (cancellingEvent.current_period_start * 1000)
          currentPeriodEnd := some (cancellingEvent.current_period_end * 1000)
          cancelAtPeriodEnd := cancellingEvent.cancel_at_period_end
          canceledAt := if jsTruthyNum cancellingEvent.canceled_at
                        then some (cancellingEvent.canceled_at.getD 0 * 1000)
                        else baseSub.canceledAt }
    ∧ findSubscriptionByStripeSubscriptionId
        (WebhookService.handleSubscriptionCreated [baseSub] cancellingEvent).1 cancellingEvent.id
      = some { baseSub with
          stripeSubscriptionId := some cancellingEvent.id
          status := WebhookService.mapStripeStatus cancellingEvent.status
          currentPeriodStart := some (cancellingEvent.current_period_start * 1000)
          currentPeriodEnd := some (cancellingEvent.current_period_end * 1000) } :=
  c3_subscription_event_sync [baseSub] cancellingEvent baseSub rfl

theorem create_auth_irrel (env : Env) (db : SubDb) (u e n : String) (p : SubscriptionPlan)
    (now : Int) (o o2 : FetchOutcome) :
    SubscriptionService.create env db u e n p now o
      = SubscriptionService.create env db u e n p now o2 := by
  unfold SubscriptionService.create
  cases findSubscriptionByUserId db u <;> simp [auth_never_throws]

theorem changePlan_auth_irrel (db : SubDb) (u : String) (p : SubscriptionPlan)
    (o o2 : FetchOutcome) :
    SubscriptionService.changePlan db u p o = SubscriptionService.changePlan db u p o2 := by
  unfold SubscriptionService.changePlan
  cases findSubscriptionByUserId db u <;> simp [auth_never_throws]

theorem startPaid_auth_irrel (env : Env) (db : SubDb) (u pm : String) (now : Int)
    (o o2 : FetchOutcome) :
    SubscriptionService.startPaidSubscription env db u pm now o
      = SubscriptionService.startPaidSubscription env db u pm now o2 := by
  unfold SubscriptionService.startPaidSubscription
  cases findSubscriptionByUserId db u <;> simp [auth_never_throws]

theorem cancel_auth_irrel (db : SubDb) (u : String) (cape : Bool) (now : Int)
    (o o2 : FetchOutcome) :
    SubscriptionService.cancel db u cape now o = SubscriptionService.cancel db u cape now o2 := by
  unfold SubscriptionService.cancel
  cases findSubscriptionByUserId db u <;> simp [auth_never_throws]

theorem cswc_auth_irrel (env : Env) (db : SubDb) (u e n : String) (p : SubscriptionPlan)
    (pm : String) (now : Int) (o o2 : FetchOutcome) :
    SubscriptionService.createSubscriptionWithCard env db u e n p pm now o
      = SubscriptionService.createSubscriptionWithCard env db u e n p pm now o2 := by
  unfold SubscriptionService.createSubscriptionWithCard
  cases findSubscriptionByUserId db u with
  | none => simp [auth_never_throws]
  | some ex =>
      by_cases hp : ex.plan ≠ p
      · simp only [if_pos hp]
        rw [changePlan_auth_irrel db u p o o2]
        simp [auth_never_throws]
      · simp only [if_neg hp]
        exact create_auth_irrel env db u e n p now o o2

/-- C9: the identity-notification step never raises (every network
outcome of `updateUserSubscription` — 2xx, non-2xx, thrown fetch
error — returns normally), and for each of the five lifecycle
operations the result (trace, store, and returned value or error) is
the same whatever the identity service does: a mutation that succeeded
against the processor and the remote store still returns success. -/
theorem c9_identity_notification_never_propagates :
    (∀ o : FetchOutcome, AuthServiceClient.updateUserSubscription o = Except.ok ())
    ∧ (∀ (env : Env) (db : SubDb) (u e n : String) (p : SubscriptionPlan) (now : Int)
        (o o2 : FetchOutcome),
        SubscriptionService.create env db u e n p now o
          = SubscriptionService.create env db u e n p now o2)
    ∧ (∀ (env : Env) (db : SubDb) (u e n : String) (p : SubscriptionPlan) (pm : String)
        (now : Int) (o o2 : FetchOutcome),
        SubscriptionService.createSubscriptionWithCard env db u e n p pm now o
          = SubscriptionService.createSubscriptionWithCard env db u e n p pm now o2)
    ∧ (∀ (env : Env) (db : SubDb) (u pm : String) (now : Int) (o o2 : FetchOutcome),
        SubscriptionService.startPaidSubscription env db u pm now o
          = SubscriptionService.startPaidSubscription env db u pm now o2)
    ∧ (∀ (db : SubDb) (u : String) (cape : Bool) (now : Int) (o o2 : FetchOutcome),
        SubscriptionService.cancel db u cape now o = SubscriptionService.cancel db u cape now o2)
    ∧ (∀ (db : SubDb) (u : String) (p : SubscriptionPlan) (o o2 : FetchOutcome),
        SubscriptionService.changePlan db u p o = SubscriptionService.changePlan db u p o2) :=
  ⟨auth_never_throws, create_auth_irrel, cswc_auth_irrel, startPaid_auth_irrel,
   cancel_auth_irrel, changePlan_auth_irrel⟩
